import Mathlib

/-!
Verification development for the Global-Fi Ultra financial-data aggregation
API. The per-provider resilience core (circuit breaker, aggregation service,
cache contract) is modelled from the specification where the repository ships
only its callers and declarations; configuration loading, the error class
hierarchy and the error-handler middleware are embedded directly from the
JavaScript source.
-/

namespace GlobalFi

/-- Modelled from the spec: the three circuit-breaker states of §3/§4.1
(`CLOSED | OPEN | HALF_OPEN`); the `CircuitBreaker.js` implementation is not
present in the repository snapshot, only its callers and configuration. -/
inductive BreakerState
  | CLOSED
  | OPEN
  | HALF_OPEN
deriving DecidableEq, Repr

/-- Modelled from the spec: circuit-breaker attributes of §3 — consecutive
failure counter, failure threshold, open-duration timeout, and the timestamp
of the last state change. Timestamps are naturals (milliseconds). -/
structure CircuitBreaker where
  state : BreakerState
  failureCount : Nat
  threshold : Nat
  openTimeout : Nat
  lastStateChange : Nat
deriving DecidableEq, Repr

/-- Outcome of one `execute` call: blocked by the open breaker, wrapped
operation succeeded, or wrapped operation failed (spec §4.1 contract
`Result T, CircuitOpenError | OperationError`). -/
inductive ExecOutcome
  | circuitOpen
  | success
  | opFailure
deriving DecidableEq, Repr

/-- Result of one `execute` step: the updated breaker, the outcome returned
to the caller, and whether the wrapped operation was actually invoked. -/
structure ExecStep where
  breaker : CircuitBreaker
  outcome : ExecOutcome
  invoked : Bool
deriving DecidableEq, Repr

/-- Modelled from the spec: §4.1 algorithm step 2 — invoke the wrapped
operation. On success reset the failure counter to 0 and, if the state was
`HALF_OPEN`, transition to `CLOSED` (recording `lastStateChange`). On failure
increment the counter; from `HALF_OPEN` transition straight back to `OPEN`
regardless of threshold; from `CLOSED` transition to `OPEN` when the counter
reaches the threshold. The operation is abstracted by its boolean result
`opOk`. -/
def CircuitBreaker.runOp (b : CircuitBreaker) (now : Nat) (opOk : Bool) : ExecStep :=
  if opOk then
    match b.state with
    | BreakerState.HALF_OPEN =>
        let b2 : CircuitBreaker :=
          { b with state := BreakerState.CLOSED, failureCount := 0, lastStateChange := now }
        { breaker := b2, outcome := ExecOutcome.success, invoked := true }
    | _ =>
        { breaker := { b with failureCount := 0 },
          outcome := ExecOutcome.success, invoked := true }
  else
    match b.state with
    | BreakerState.HALF_OPEN =>
        let b2 : CircuitBreaker :=
          { b with state := BreakerState.OPEN, failureCount := b.failureCount + 1,
                   lastStateChange := now }
        { breaker := b2, outcome := ExecOutcome.opFailure, invoked := true }
    | _ =>
        if b.threshold ≤ b.failureCount + 1 then
          let b2 : CircuitBreaker :=
            { b with state := BreakerState.OPEN, failureCount := b.failureCount + 1,
                     lastStateChange := now }
          { breaker := b2, outcome := ExecOutcome.opFailure, invoked := true }
        else
          { breaker := { b with failureCount := b.failureCount + 1 },
            outcome := ExecOutcome.opFailure, invoked := true }

/-- Modelled from the spec: §4.1 algorithm step 1 — if the breaker is `OPEN`
and `now - lastStateChange` has not yet reached `openTimeout`, fail fast with
`CircuitOpenError` without invoking the operation; if the timeout has
elapsed, transition to `HALF_OPEN` and let exactly one probe through.
Otherwise (state `CLOSED`) run the operation. -/
def CircuitBreaker.execute (b : CircuitBreaker) (now : Nat) (opOk : Bool) : ExecStep :=
  match b.state with
  | BreakerState.OPEN =>
      if b.openTimeout ≤ now - b.lastStateChange then
        CircuitBreaker.runOp
          { b with state := BreakerState.HALF_OPEN, lastStateChange := now } now opOk
      else
        { breaker := b, outcome := ExecOutcome.circuitOpen, invoked := false }
  | _ => CircuitBreaker.runOp b now opOk

/-- Modelled from the spec: initial breaker state (§4.1 — "Initial state:
CLOSED") with a zero failure counter. -/
def CircuitBreaker.init (threshold openTimeout t0 : Nat) : CircuitBreaker :=
  { state := BreakerState.CLOSED, failureCount := 0, threshold := threshold,
    openTimeout := openTimeout, lastStateChange := t0 }

/-- Feed a sequence of failing calls (their timestamps) to the breaker. -/
def CircuitBreaker.runFailures (b : CircuitBreaker) (ts : List Nat) : CircuitBreaker :=
  match ts with
  | [] => b
  | t :: rest => CircuitBreaker.runFailures ((CircuitBreaker.execute b t false).breaker) rest

/-- Sample breaker sitting in the `OPEN` state (tripped at time 3 with
threshold 3 and a 1000 ms open timeout), used by concrete witnesses. -/
def openBreakerSample : CircuitBreaker :=
  { state := BreakerState.OPEN, failureCount := 3, threshold := 3,
    openTimeout := 1000, lastStateChange := 3 }

/-- Sample breaker in the `CLOSED` state with a non-zero failure counter
below the threshold, used by concrete witnesses. -/
def closedBreakerSample : CircuitBreaker :=
  { state := BreakerState.CLOSED, failureCount := 2, threshold := 3,
    openTimeout := 1000, lastStateChange := 0 }

/-- Modelled from the spec: the per-provider failure taxonomy crossing into
the aggregator (§7) — a policy-level circuit-open block, or a client error
from an attempted call; the `FinancialDataService` implementation is not in
the repository snapshot, only its callers. -/
inductive ProviderError
  | circuitOpen (service : String)
  | clientError (service : String) (message : String)
deriving DecidableEq, Repr

/-- Modelled from the spec: §4.3 step 3 — a successful payload fills its
slot; any failure (including a circuit-open rejection) leaves the slot
absent. -/
def slotOf (r : Except ProviderError String) : Option String :=
  match r with
  | Except.ok v => some v
  | Except.error _ => none

/-- Number of provider slots among the six that hold a successful payload. -/
def successCount (results : Fin 6 → Except ProviderError String) : Nat :=
  (List.finRange 6).countP (fun i => (slotOf (results i)).isSome)

/-- Modelled from the spec: the §3 envelope status invariant — `error` when
every slot failed, `ok` when all six succeeded, `partial` otherwise. -/
def buildStatus (succ : Nat) : String :=
  if succ = 0 then "error" else if succ = 6 then "ok" else "partial"

/-- Modelled from the spec: the §3 aggregate response envelope — one slot
per provider category plus the overall status field. -/
structure AggregateResult where
  slots : Fin 6 → Option String
  status : String

/-- Modelled from the spec: §4.3 steps 3-4 — merge the six settled adapter
outcomes into the envelope and compute the overall status. -/
def aggregate (results : Fin 6 → Except ProviderError String) : AggregateResult :=
  { slots := fun i => slotOf (results i),
    status := buildStatus (successCount results) }

/-- Concrete run of §8: adapters 2 and 5 (slot indices 1 and 4) always
fail, the other four always succeed. -/
def scenarioTwoFiveFail : Fin 6 → Except ProviderError String :=
  fun i =>
    if i = 1 ∨ i = 4 then Except.error (ProviderError.clientError "provider" "down")
    else Except.ok "payload"

/-- Concrete run of §8: all six adapters fail, the first with a
circuit-open rejection. -/
def allFailOutcomes : Fin 6 → Except ProviderError String :=
  fun i =>
    if i = 0 then Except.error (ProviderError.circuitOpen "alphavantage")
    else Except.error (ProviderError.clientError "provider" "down")

/-- Modelled from the spec: §4.3 failure semantics — `getLive` settles all
six outcomes (never letting one failing call abort the others), builds the
envelope, and never rethrows a provider failure, so its only possible
result constructor is success; the `FinancialDataService.execute`
implementation is not in the repository snapshot. -/
def getLiveResult (results : Fin 6 → Except ProviderError String) :
    Except ProviderError AggregateResult :=
  Except.ok (aggregate results)

/-- Modelled from the spec: §3 CacheEntry — payload plus `fetchedAt`
timestamp and per-key TTL; an expired entry is treated as absent, never
returned stale. -/
structure CacheEntry where
  value : AggregateResult
  fetchedAt : Nat
  ttl : Nat

/-- Modelled from the spec: the cache at the aggregate key — the slot
holding the last-written aggregate envelope, if any (the `RedisCache`
implementation is not in the repository snapshot, only its callers). -/
structure CacheState where
  entry : Option CacheEntry

/-- Modelled from the spec: §6 cache contract `set` — overwrite the entry
at the key, last-write-wins; the previous state at that key is discarded. -/
def cacheSet (s : CacheState) (v : AggregateResult) (now ttl : Nat) : CacheState :=
  { entry := some { value := v, fetchedAt := now, ttl := ttl } }

/-- Modelled from the spec: §6 cache contract `get` — return the stored
value, or `none` when the key is empty or the entry has expired (§3:
"an expired entry is treated as absent"). -/
def cacheGet (s : CacheState) (now : Nat) : Option AggregateResult :=
  match s.entry with
  | none => none
  | some e => if now < e.fetchedAt + e.ttl then some e.value else none

/-- Modelled from the spec: §4.3 steps 1-6 — `getLive` merges the settled
outcomes into the envelope, writes it to the cache under the aggregate key,
and returns the envelope. -/
def getLive (results : Fin 6 → Except ProviderError String) (s : CacheState)
    (now ttl : Nat) : AggregateResult × CacheState :=
  (aggregate results, cacheSet s (aggregate results) now ttl)

/-- Modelled from the spec: `getCached` — read the last aggregate from the
cache; `none` (null), not an error and not an exception, on a miss. -/
def getCachedData (s : CacheState) (now : Nat) : Option AggregateResult :=
  cacheGet s now

/-- Modelled from the spec: §6 cache contract `get` guarded by backend
availability — while the backend is unavailable the read degrades to a
miss. -/
def cacheGetOp (avail : Bool) (s : CacheState) (now : Nat) : Option AggregateResult :=
  if avail then cacheGet s now else none

/-- Modelled from the spec: §6 cache contract `set` guarded by backend
availability — while the backend is unavailable the write is a no-op and
reports `false`. -/
def cacheSetOp (avail : Bool) (s : CacheState) (v : AggregateResult) (now ttl : Nat) :
    CacheState × Bool :=
  if avail then (cacheSet s v now ttl, true) else (s, false)

/-- Modelled from the spec: §6 cache contract `clear` guarded by backend
availability — while the backend is unavailable nothing is flushed and the
result is `false` (the caller `AdminController.clearCache` then answers
HTTP 500 instead of throwing). -/
def cacheClearOp (avail : Bool) (s : CacheState) : CacheState × Bool :=
  if avail then ({ entry := none }, true) else (s, false)

/-- Outcome of `client.connect()` abstracted as an `Except`: a connection
failure is the thrown exception caught by `connectRedis`. -/
def tryConnect (connectOk : Bool) : Except String Unit :=
  if connectOk then Except.ok () else Except.error "connect failed"

/-- Shallow embedding of `connectRedis` (Redis client setup): when no URL
is configured return null and run without cache; otherwise try to connect
and catch any failure, returning null ("continuing without cache") instead
of propagating the exception. -/
def connectRedis (urlConfigured connectOk : Bool) : Option Unit :=
  if urlConfigured = false then none
  else
    match tryConnect connectOk with
    | Except.ok _ => some ()
    | Except.error _ => none

/-- JavaScript `Number` restricted to the non-negative decimal integer
strings this schema uses (the defaults and well-formed overrides). -/
def toNumber (s : String) : Nat :=
  s.data.foldl (fun acc c => acc * 10 + (c.toNat - 48)) 0

/-- Shallow embedding of one `z.string().transform(Number).default(d)`
field of `envSchema` (src/src/config/environment.js): an unset variable
takes the string default, and the string is then coerced by `Number`. -/
def numberField (dflt : String) (input : Option String) : Nat :=
  toNumber (input.getD dflt)

/-- The circuit-breaker slice of the validated `env` object
(src/src/config/environment.js, `envSchema` lines 93-99). -/
structure CircuitBreakerEnv where
  CIRCUIT_BREAKER_THRESHOLD : Nat
  CIRCUIT_BREAKER_TIMEOUT : Nat
  CIRCUIT_BREAKER_RESET_TIMEOUT : Nat
deriving DecidableEq, Repr

/-- Shallow embedding of parsing the three circuit-breaker environment
variables with their schema defaults: threshold default `'3'`, request
timeout default `'30000'`, reset timeout default `'30000'`. -/
def parseCircuitBreakerEnv (threshold timeout resetTimeout : Option String) :
    CircuitBreakerEnv :=
  { CIRCUIT_BREAKER_THRESHOLD := numberField "3" threshold,
    CIRCUIT_BREAKER_TIMEOUT := numberField "30000" timeout,
    CIRCUIT_BREAKER_RESET_TIMEOUT := numberField "30000" resetTimeout }

/-- `config.circuitBreaker` (src/src/config/environment.js lines 212-217). -/
structure CircuitBreakerConfig where
  threshold : Nat
  timeout : Nat
  resetTimeout : Nat
deriving DecidableEq, Repr

/-- Shallow embedding of building `config.circuitBreaker` from the
validated env: a direct field-by-field mapping. -/
def circuitBreakerConfig (e : CircuitBreakerEnv) : CircuitBreakerConfig :=
  { threshold := e.CIRCUIT_BREAKER_THRESHOLD,
    timeout := e.CIRCUIT_BREAKER_TIMEOUT,
    resetTimeout := e.CIRCUIT_BREAKER_RESET_TIMEOUT }

/-- Shallow embedding of the fields every error instance of the hierarchy
in src/src/utils/errors.js carries: constructor name, message, application
error code, HTTP status, optional failing service, optional details, and
the operational flag. -/
structure ErrorValue where
  name : String
  message : String
  code : String
  httpStatus : Nat
  service : Option String
  details : Option String
  isOperational : Bool
deriving DecidableEq, Repr

/-- `new AppError(message, code, httpStatus, details)`
(src/src/utils/errors.js lines 10-19). -/
def mkAppError (message : String) (code : String) (httpStatus : Nat)
    (details : Option String) : ErrorValue :=
  { name := "AppError", message := message, code := code, httpStatus := httpStatus,
    service := none, details := details, isOperational := true }

/-- `new ExternalAPIError(message, service, details)`
(src/src/utils/errors.js lines 44-50): `super(message, 'E1006', 502,
details)`, then the name is overridden and `service` recorded. -/
def mkExternalAPIError (message service : String) (details : Option String) :
    ErrorValue :=
  { mkAppError message "E1006" 502 details with
      name := "ExternalAPIError", service := some service }

/-- `new CircuitBreakerError(service)` (src/src/utils/errors.js lines
55-61): `super(message, 'E1007', 503)` with the interpolated message, then
the name is overridden and `service` recorded. -/
def mkCircuitBreakerError (service : String) : ErrorValue :=
  { mkAppError ("Circuit breaker is open for " ++ service) "E1007" 503 none with
      name := "CircuitBreakerError", service := some service }

/-- Discriminator a caller can evaluate on the error value alone: the call
was blocked by policy iff the value is a `CircuitBreakerError` (by its
`name`; the `code` field `'E1007'` versus `'E1006'` works equally). -/
def isPolicyBlock (e : ErrorValue) : Bool :=
  e.name == "CircuitBreakerError"

/-- Shallow embedding of the observable fields of an error object reaching
the Express error handler: whether it is an `instanceof AppError`, its
`name`, `message`, `code`, `httpStatus`, Zod issue list (`errors`) and
`details`. -/
structure JsError where
  isAppError : Bool
  name : String
  message : String
  code : String
  httpStatus : Nat
  errors : Option String
  details : Option String
deriving DecidableEq, Repr

/-- The `config.server` flags consulted by the handler. -/
structure ServerConfig where
  isProd : Bool
  isDev : Bool
deriving DecidableEq, Repr

/-- The `error` object of the handler's JSON response body. -/
structure ErrorBody where
  code : String
  message : String
  details : Option String
deriving DecidableEq, Repr

/-- The handler's HTTP response: status code, body, and echoed request id. -/
structure ErrorResponse where
  status : Nat
  body : ErrorBody
  requestId : String
deriving DecidableEq, Repr

/-- JavaScript `a || b` on an optional string: `undefined` and the empty
string are falsy. -/
def jsOrElse (a : Option String) (b : String) : String :=
  match a with
  | some s => if s = "" then b else s
  | none => b

/-- Shallow embedding of `errorHandler`
(src/src/middleware/errorHandler.js lines 54-124): classify by
`instanceof AppError`, then by the `ZodError` and Mongoose
`ValidationError` names, falling through to the unknown-error 500 response
whose production message is the constant generic string. -/
def errorHandler (cfg : ServerConfig) (requestId : String) (err : JsError) :
    ErrorResponse :=
  if err.isAppError then
    let body : ErrorBody :=
      { code := err.code,
        message := if cfg.isProd then err.message else jsOrElse err.details err.message,
        details := none }
    { status := err.httpStatus, body := body, requestId := requestId }
  else if err.name == "ZodError" then
    let body : ErrorBody :=
      { code := "E1008", message := "Validation error",
        details := if cfg.isDev then err.errors else none }
    { status := 400, body := body, requestId := requestId }
  else if err.name == "ValidationError" then
    let body : ErrorBody :=
      { code := "E1008", message := "Validation error",
        details := if cfg.isDev then some err.message else none }
    { status := 400, body := body, requestId := requestId }
  else
    let body : ErrorBody :=
      { code := "E1009",
        message := if cfg.isProd then "Internal server error" else err.message,
        details := none }
    { status := 500, body := body, requestId := requestId }

/-- Sample unknown error (a plain TypeError), used by concrete witnesses. -/
def typeErrorSample : JsError :=
  { isAppError := false, name := "TypeError", message := "x is not a function",
    code := "", httpStatus := 0, errors := none, details := none }

/-- A second, different unknown error (a RangeError), used by concrete
witnesses for the two-run comparison. -/
def rangeErrorSample : JsError :=
  { isAppError := false, name := "RangeError", message := "index out of range",
    code := "", httpStatus := 0, errors := none, details := none }

/-- Production server flags. -/
def prodConfigSample : ServerConfig :=
  { isProd := true, isDev := false }

theorem CircuitBreaker.execute_open_failFast (b : CircuitBreaker) (now : Nat) (opOk : Bool)
    (hopen : b.state = BreakerState.OPEN)
    (htime : now - b.lastStateChange < b.openTimeout) :
    CircuitBreaker.execute b now opOk =
      { breaker := b, outcome := ExecOutcome.circuitOpen, invoked := false } := by
  unfold CircuitBreaker.execute
  rw [hopen, if_neg (Nat.not_le.mpr htime)]

theorem CircuitBreaker.failure_from_open (b : CircuitBreaker) (t : Nat)
    (hopen : b.state = BreakerState.OPEN) :
    ((CircuitBreaker.execute b t false).breaker).state = BreakerState.OPEN := by
  unfold CircuitBreaker.execute
  rw [hopen]
  by_cases h : b.openTimeout ≤ t - b.lastStateChange
  · rw [if_pos h]
    simp [CircuitBreaker.runOp]
  · rw [if_neg h]
    exact hopen

theorem CircuitBreaker.runFailures_open (b : CircuitBreaker) (ts : List Nat)
    (hopen : b.state = BreakerState.OPEN) :
    (CircuitBreaker.runFailures b ts).state = BreakerState.OPEN := by
  induction ts generalizing b with
  | nil => simpa [CircuitBreaker.runFailures] using hopen
  | cons t rest ih =>
      rw [CircuitBreaker.runFailures]
      exact ih _ (CircuitBreaker.failure_from_open b t hopen)

theorem CircuitBreaker.runFailures_from_closed (b : CircuitBreaker) (ts : List Nat)
    (hclosed : b.state = BreakerState.CLOSED)
    (hne : 1 ≤ ts.length)
    (hcnt : b.threshold ≤ b.failureCount + ts.length) :
    (CircuitBreaker.runFailures b ts).state = BreakerState.OPEN := by
  induction ts generalizing b with
  | nil => simp at hne
  | cons t rest ih =>
      rw [CircuitBreaker.runFailures]
      have hexec : CircuitBreaker.execute b t false = CircuitBreaker.runOp b t false := by
        unfold CircuitBreaker.execute
        rw [hclosed]
      rw [hexec]
      unfold CircuitBreaker.runOp
      rw [hclosed]
      by_cases hth : b.threshold ≤ b.failureCount + 1
      · rw [if_pos hth]
        exact CircuitBreaker.runFailures_open _ rest rfl
      · rw [if_neg hth]
        have hlt : b.failureCount + 1 < b.threshold := Nat.lt_of_not_le hth
        have hrest : 1 ≤ rest.length := by
          simp only [List.length_cons] at hcnt
          omega
        have hcnt2 : b.threshold ≤ b.failureCount + 1 + rest.length := by
          simp only [List.length_cons] at hcnt
          omega
        exact ih _ rfl hrest hcnt2

/-- C2: for every sequence of at least `threshold` consecutive failures fed
to `execute`, the breaker transitions to `OPEN`, and every `execute` call
made while the state is `OPEN` before `openTimeout` has elapsed since the
last state change returns `CircuitOpenError` immediately, leaving the
breaker untouched and never invoking the wrapped operation. -/
theorem breaker_opens_after_threshold_failures_and_fails_fast
    (threshold openTimeout t0 : Nat) (ts : List Nat) (b : CircuitBreaker)
    (now : Nat) (opOk : Bool)
    (hthr : 1 ≤ threshold) (hlen : threshold ≤ ts.length)
    (hopen : b.state = BreakerState.OPEN)
    (htime : now - b.lastStateChange < b.openTimeout) :
    (CircuitBreaker.runFailures (CircuitBreaker.init threshold openTimeout t0) ts).state
        = BreakerState.OPEN
    ∧ CircuitBreaker.execute b now opOk
        = { breaker := b, outcome := ExecOutcome.circuitOpen, invoked := false } := by
  constructor
  · exact CircuitBreaker.runFailures_from_closed _ ts rfl (le_trans hthr hlen)
      (by simpa [CircuitBreaker.init] using hlen)
  · exact CircuitBreaker.execute_open_failFast b now opOk hopen htime

theorem breaker_opens_after_threshold_failures_and_fails_fast_witness :
    (CircuitBreaker.runFailures (CircuitBreaker.init 3 1000 0) [1, 2, 3]).state
        = BreakerState.OPEN
    ∧ CircuitBreaker.execute openBreakerSample 500 true
        = { breaker := openBreakerSample, outcome := ExecOutcome.circuitOpen,
            invoked := false } :=
  breaker_opens_after_threshold_failures_and_fails_fast 3 1000 0 [1, 2, 3]
    openBreakerSample 500 true (by decide) (by decide) rfl (by decide)

/-- C3: once `openTimeout` has elapsed since the `OPEN` transition, the next
`execute` call is let through as the `HALF_OPEN` probe (the operation is
invoked); a successful probe closes the breaker with failure counter 0,
while a failed probe returns it to `OPEN` (no threshold condition) with the
timeout window restarted at the probe's timestamp. -/
theorem breaker_half_open_probe (b : CircuitBreaker) (now : Nat)
    (hopen : b.state = BreakerState.OPEN)
    (helapsed : b.openTimeout ≤ now - b.lastStateChange) :
    (CircuitBreaker.execute b now true).invoked = true
    ∧ (CircuitBreaker.execute b now false).invoked = true
    ∧ (CircuitBreaker.execute b now true).breaker.state = BreakerState.CLOSED
    ∧ (CircuitBreaker.execute b now true).breaker.failureCount = 0
    ∧ (CircuitBreaker.execute b now false).breaker.state = BreakerState.OPEN
    ∧ (CircuitBreaker.execute b now false).breaker.lastStateChange = now := by
  have hT : ∀ opOk, CircuitBreaker.execute b now opOk
      = CircuitBreaker.runOp
          { b with state := BreakerState.HALF_OPEN, lastStateChange := now } now opOk := by
    intro opOk
    unfold CircuitBreaker.execute
    rw [hopen, if_pos helapsed]
  rw [hT true, hT false]
  simp [CircuitBreaker.runOp]

theorem breaker_half_open_probe_witness :
    (CircuitBreaker.execute openBreakerSample 1500 true).invoked = true
    ∧ (CircuitBreaker.execute openBreakerSample 1500 false).invoked = true
    ∧ (CircuitBreaker.execute openBreakerSample 1500 true).breaker.state
        = BreakerState.CLOSED
    ∧ (CircuitBreaker.execute openBreakerSample 1500 true).breaker.failureCount = 0
    ∧ (CircuitBreaker.execute openBreakerSample 1500 false).breaker.state
        = BreakerState.OPEN
    ∧ (CircuitBreaker.execute openBreakerSample 1500 false).breaker.lastStateChange
        = 1500 :=
  breaker_half_open_probe openBreakerSample 1500 rfl (by decide)

/-- C4: a successful `execute` call always leaves the consecutive-failure
counter at 0; the counter is 0 whenever the state has just transitioned to
`CLOSED` from a non-`CLOSED` state; and a single success while `CLOSED` with
a non-zero counter below the threshold resets the counter to 0 while staying
`CLOSED`. -/
theorem breaker_success_resets_counter :
    (∀ (b : CircuitBreaker) (now : Nat),
        (CircuitBreaker.execute b now true).outcome = ExecOutcome.success →
        (CircuitBreaker.execute b now true).breaker.failureCount = 0)
    ∧ (∀ (b : CircuitBreaker) (now : Nat) (opOk : Bool),
        b.state ≠ BreakerState.CLOSED →
        (CircuitBreaker.execute b now opOk).breaker.state = BreakerState.CLOSED →
        (CircuitBreaker.execute b now opOk).breaker.failureCount = 0)
    ∧ (∀ (b : CircuitBreaker) (now : Nat),
        b.state = BreakerState.CLOSED → 0 < b.failureCount →
        b.failureCount < b.threshold →
        (CircuitBreaker.execute b now true).breaker.state = BreakerState.CLOSED
        ∧ (CircuitBreaker.execute b now true).breaker.failureCount = 0) := by
  refine ⟨?_, ?_, ?_⟩
  · intro b now hsucc
    by_cases hb : b.state = BreakerState.OPEN
    · by_cases ht : b.openTimeout ≤ now - b.lastStateChange
      · simp [CircuitBreaker.execute, CircuitBreaker.runOp, hb, ht]
      · simp [CircuitBreaker.execute, hb, ht] at hsucc
    · have hexec : CircuitBreaker.execute b now true = CircuitBreaker.runOp b now true := by
        unfold CircuitBreaker.execute
        cases hs : b.state
        · rfl
        · exact absurd hs hb
        · rfl
      rw [hexec]
      unfold CircuitBreaker.runOp
      cases hs : b.state <;> simp
  · intro b now opOk hne hclosed
    cases hb : b.state with
    | CLOSED => exact absurd hb hne
    | OPEN =>
        by_cases ht : b.openTimeout ≤ now - b.lastStateChange
        · cases opOk with
          | true => simp [CircuitBreaker.execute, CircuitBreaker.runOp, hb, ht]
          | false =>
              simp [CircuitBreaker.execute, CircuitBreaker.runOp, hb, ht] at hclosed
        · simp [CircuitBreaker.execute, hb, ht] at hclosed
    | HALF_OPEN =>
        cases opOk with
        | true => simp [CircuitBreaker.execute, CircuitBreaker.runOp, hb]
        | false => simp [CircuitBreaker.execute, CircuitBreaker.runOp, hb] at hclosed
  · intro b now hclosed hpos hlt
    simp [CircuitBreaker.execute, CircuitBreaker.runOp, hclosed]

theorem breaker_success_resets_counter_witness :
    (CircuitBreaker.execute closedBreakerSample 5 true).breaker.failureCount = 0
    ∧ (CircuitBreaker.execute openBreakerSample 2000 true).breaker.failureCount = 0
    ∧ ((CircuitBreaker.execute closedBreakerSample 5 true).breaker.state
          = BreakerState.CLOSED
        ∧ (CircuitBreaker.execute closedBreakerSample 5 true).breaker.failureCount = 0) :=
  ⟨breaker_success_resets_counter.1 closedBreakerSample 5 (by decide),
   breaker_success_resets_counter.2.1 openBreakerSample 2000 true (by decide) (by decide),
   breaker_success_resets_counter.2.2 closedBreakerSample 5 rfl (by decide) (by decide)⟩

theorem successCount_eq_zero_iff (results : Fin 6 → Except ProviderError String) :
    successCount results = 0 ↔ ∀ i, slotOf (results i) = none := by
  unfold successCount
  rw [List.countP_eq_zero]
  constructor
  · intro h i
    have hi := h i (List.mem_finRange i)
    simpa [Option.not_isSome_iff_eq_none] using hi
  · intro h a _
    simp [h a]

theorem successCount_eq_six_iff (results : Fin 6 → Except ProviderError String) :
    successCount results = 6 ↔ ∀ i, (slotOf (results i)).isSome = true := by
  unfold successCount
  constructor
  · intro h i
    have h2 : List.countP (fun j => (slotOf (results j)).isSome) (List.finRange 6)
        = (List.finRange 6).length := by simp [h]
    exact List.countP_eq_length.mp h2 i (List.mem_finRange i)
  · intro h
    have h2 : List.countP (fun j => (slotOf (results j)).isSome) (List.finRange 6)
        = (List.finRange 6).length := List.countP_eq_length.mpr (fun a _ => h a)
    simpa using h2

theorem buildStatus_error_iff (n : Nat) : buildStatus n = "error" ↔ n = 0 := by
  unfold buildStatus
  by_cases h0 : n = 0
  · simp [h0]
  · by_cases h6 : n = 6 <;> simp [h0, h6]

theorem buildStatus_ok_iff (n : Nat) : buildStatus n = "ok" ↔ n = 6 := by
  unfold buildStatus
  by_cases h0 : n = 0
  · simp [h0]
  · by_cases h6 : n = 6 <;> simp [h0, h6]

theorem buildStatus_partial_iff (n : Nat) :
    buildStatus n = "partial" ↔ (n ≠ 0 ∧ n ≠ 6) := by
  unfold buildStatus
  by_cases h0 : n = 0
  · simp [h0]
  · by_cases h6 : n = 6 <;> simp [h0, h6]

/-- C1: the envelope status is `error` iff every provider slot failed,
`partial` iff at least one but not all failed, `ok` iff all six succeeded;
and in the concrete run where adapters 2 and 5 fail while 1, 3, 4, 6
succeed, the status is `partial` with slots 1, 3, 4, 6 populated and slots
2 and 5 absent. -/
theorem aggregate_status_invariant (results : Fin 6 → Except ProviderError String) :
    ((aggregate results).status = "error" ↔ ∀ i, (aggregate results).slots i = none)
    ∧ ((aggregate results).status = "partial" ↔
        ((∃ i, (aggregate results).slots i = none)
          ∧ ∃ j, ((aggregate results).slots j).isSome = true))
    ∧ ((aggregate results).status = "ok" ↔
        ∀ i, ((aggregate results).slots i).isSome = true)
    ∧ (aggregate scenarioTwoFiveFail).status = "partial"
    ∧ (aggregate scenarioTwoFiveFail).slots 1 = none
    ∧ (aggregate scenarioTwoFiveFail).slots 4 = none
    ∧ ((aggregate scenarioTwoFiveFail).slots 0).isSome = true
    ∧ ((aggregate scenarioTwoFiveFail).slots 2).isSome = true
    ∧ ((aggregate scenarioTwoFiveFail).slots 3).isSome = true
    ∧ ((aggregate scenarioTwoFiveFail).slots 5).isSome = true := by
  have hslots : ∀ i, (aggregate results).slots i = slotOf (results i) := fun i => rfl
  have hstat : (aggregate results).status = buildStatus (successCount results) := rfl
  refine ⟨?_, ?_, ?_, by decide, by decide, by decide, by decide, by decide, by decide,
    by decide⟩
  · rw [hstat, buildStatus_error_iff, successCount_eq_zero_iff]
    constructor
    · intro h i
      rw [hslots i]
      exact h i
    · intro h i
      rw [← hslots i]
      exact h i
  · rw [hstat, buildStatus_partial_iff]
    have hne0 : successCount results ≠ 0 ↔ ∃ i, (slotOf (results i)).isSome = true := by
      rw [Ne, successCount_eq_zero_iff, not_forall]
      exact exists_congr (fun i => Option.ne_none_iff_isSome)
    have hne6 : successCount results ≠ 6 ↔ ∃ i, slotOf (results i) = none := by
      rw [Ne, successCount_eq_six_iff, not_forall]
      exact exists_congr (fun i => Option.not_isSome_iff_eq_none)
    rw [hne0, hne6]
    constructor
    · rintro ⟨⟨i, hi⟩, j, hj⟩
      exact ⟨⟨j, by rwa [hslots j]⟩, ⟨i, by rwa [hslots i]⟩⟩
    · rintro ⟨⟨i, hi⟩, j, hj⟩
      exact ⟨⟨j, by rwa [hslots j] at hj⟩, ⟨i, by rwa [hslots i] at hi⟩⟩
  · rw [hstat, buildStatus_ok_iff, successCount_eq_six_iff]
    constructor
    · intro h i
      rw [hslots i]
      exact h i
    · intro h i
      rw [← hslots i]
      exact h i

/-- C5: `getLive` never throws on provider failure — for every combination
of provider outcomes it returns an envelope; when every adapter fails the
envelope has status `error` with all slots absent; and any per-provider
failure, a circuit-open rejection included, is swallowed into per-slot
absence. -/
theorem getLive_never_throws (results : Fin 6 → Except ProviderError String) :
    getLiveResult results = Except.ok (aggregate results)
    ∧ ((∀ i, slotOf (results i) = none) →
        (aggregate results).status = "error"
        ∧ ∀ i, (aggregate results).slots i = none)
    ∧ (∀ (i : Fin 6) (s : String),
        results i = Except.error (ProviderError.circuitOpen s) →
        (aggregate results).slots i = none) := by
  refine ⟨rfl, ?_, ?_⟩
  · intro hall
    constructor
    · have h0 : successCount results = 0 := (successCount_eq_zero_iff results).mpr hall
      show buildStatus (successCount results) = "error"
      rw [h0]
      rfl
    · intro i
      show slotOf (results i) = none
      exact hall i
  · intro i s hi
    show slotOf (results i) = none
    rw [hi]
    rfl

theorem getLive_never_throws_witness :
    getLiveResult allFailOutcomes = Except.ok (aggregate allFailOutcomes)
    ∧ ((aggregate allFailOutcomes).status = "error"
        ∧ ∀ i, (aggregate allFailOutcomes).slots i = none)
    ∧ (aggregate allFailOutcomes).slots 0 = none :=
  ⟨(getLive_never_throws allFailOutcomes).1,
   (getLive_never_throws allFailOutcomes).2.1 (by decide),
   (getLive_never_throws allFailOutcomes).2.2 0 "alphavantage" rfl⟩

/-- C6: `getCached` returns null exactly when no prior `getLive` populated
the cache or the entry expired; otherwise it returns the envelope written
by the most recent `getLive` verbatim (a round trip through the cache, also
after a second overwrite). -/
theorem getCached_round_trip (s : CacheState)
    (results results2 : Fin 6 → Except ProviderError String)
    (t t2 now ttl : Nat)
    (hfresh : now < t + ttl) (hfresh2 : now < t2 + ttl) :
    (getCachedData s now = none ↔
        (s.entry = none ∨ ∃ e, s.entry = some e ∧ e.fetchedAt + e.ttl ≤ now))
    ∧ getCachedData (getLive results s t ttl).2 now = some (getLive results s t ttl).1
    ∧ getCachedData (getLive results2 (getLive results s t ttl).2 t2 ttl).2 now
        = some (aggregate results2) := by
  refine ⟨?_, ?_, ?_⟩
  · unfold getCachedData cacheGet
    cases hs : s.entry with
    | none => simp
    | some e =>
        by_cases hexp : now < e.fetchedAt + e.ttl
        · simp [hexp]
        · simp [hexp]
          omega

  · unfold getLive getCachedData cacheSet cacheGet
    simp [hfresh]
  · unfold getLive getCachedData cacheSet cacheGet
    simp [hfresh2]

theorem getCached_round_trip_witness :
    (getCachedData { entry := none } 10 = none ↔
        (({ entry := none } : CacheState).entry = none
          ∨ ∃ e, ({ entry := none } : CacheState).entry = some e
              ∧ e.fetchedAt + e.ttl ≤ 10))
    ∧ getCachedData (getLive scenarioTwoFiveFail { entry := none } 0 300).2 10
        = some (getLive scenarioTwoFiveFail { entry := none } 0 300).1
    ∧ getCachedData
        (getLive allFailOutcomes
          (getLive scenarioTwoFiveFail { entry := none } 0 300).2 5 300).2 10
        = some (aggregate allFailOutcomes) :=
  getCached_round_trip { entry := none } scenarioTwoFiveFail allFailOutcomes 0 5 10 300
    (by decide) (by decide)

/-- C8: every cache operation performed while the backend is unavailable
degrades — `get` to a miss, `set` to a no-op with a `false` result, `clear`
to a `false` result — and the connection routine swallows its failure into
a null client instead of raising, so the aggregation core keeps running
without a durable cache. -/
theorem cache_unavailable_degrades (s : CacheState) (v : AggregateResult)
    (now ttl : Nat) (connectOk : Bool) :
    cacheGetOp false s now = none
    ∧ cacheSetOp false s v now ttl = (s, false)
    ∧ cacheClearOp false s = (s, false)
    ∧ connectRedis true false = none
    ∧ connectRedis false connectOk = none := by
  exact ⟨rfl, rfl, rfl, rfl, rfl⟩

/-- C7: with the environment variables unset, the circuit-breaker failure
threshold defaults to 3 and the open-duration (reset) timeout to 30000 ms,
and both remain configurable through `CIRCUIT_BREAKER_THRESHOLD` and
`CIRCUIT_BREAKER_RESET_TIMEOUT`. -/
theorem circuit_breaker_config_defaults (s1 s2 : String) :
    (circuitBreakerConfig (parseCircuitBreakerEnv none none none)).threshold = 3
    ∧ (circuitBreakerConfig (parseCircuitBreakerEnv none none none)).resetTimeout = 30000
    ∧ (circuitBreakerConfig (parseCircuitBreakerEnv (some s1) none (some s2))).threshold
        = toNumber s1
    ∧ (circuitBreakerConfig
        (parseCircuitBreakerEnv (some s1) none (some s2))).resetTimeout
        = toNumber s2 := by
  exact ⟨by decide, by decide, rfl, rfl⟩

/-- C9: the policy-level circuit-open error is structurally distinguishable
from the wrapped operation's own `ExternalAPIError` — the `isPolicyBlock`
discriminator separates every pair of values the two constructors can
produce, and no `CircuitBreakerError` value equals any `ExternalAPIError`
value. -/
theorem circuit_open_distinguishable (msg svcB svcE : String) (d : Option String) :
    isPolicyBlock (mkCircuitBreakerError svcB) = true
    ∧ isPolicyBlock (mkExternalAPIError msg svcE d) = false
    ∧ (mkCircuitBreakerError svcB).code ≠ (mkExternalAPIError msg svcE d).code
    ∧ mkCircuitBreakerError svcB ≠ mkExternalAPIError msg svcE d := by
  refine ⟨rfl, rfl, ?_, ?_⟩
  · intro h
    simp [mkCircuitBreakerError, mkExternalAPIError, mkAppError] at h
  · intro h
    have hcode := congrArg ErrorValue.code h
    simp [mkCircuitBreakerError, mkExternalAPIError, mkAppError] at hcode

/-- C10: every error that is not an `AppError`, a `ZodError`, or a Mongoose
`ValidationError` yields a 500 response with code `E1009`; in production
the message is the constant `Internal server error`, so two runs differing
only in the internal error produce identical production response bodies
for the same request. -/
theorem unknown_error_uniform_production_response (cfg : ServerConfig)
    (rid : String) (e1 e2 : JsError)
    (h1a : e1.isAppError = false) (h1z : e1.name ≠ "ZodError")
    (h1v : e1.name ≠ "ValidationError")
    (h2a : e2.isAppError = false) (h2z : e2.name ≠ "ZodError")
    (h2v : e2.name ≠ "ValidationError") :
    (errorHandler cfg rid e1).status = 500
    ∧ (errorHandler cfg rid e1).body.code = "E1009"
    ∧ (cfg.isProd = true →
        (errorHandler cfg rid e1).body.message = "Internal server error")
    ∧ (cfg.isProd = true → errorHandler cfg rid e1 = errorHandler cfg rid e2) := by
  have hred : ∀ e : JsError, e.isAppError = false → e.name ≠ "ZodError" →
      e.name ≠ "ValidationError" →
      errorHandler cfg rid e =
        { status := 500,
          body :=
            { code := "E1009",
              message := if cfg.isProd then "Internal server error" else e.message,
              details := none },
          requestId := rid } := by
    intro e ha hz hv
    unfold errorHandler
    rw [ha]
    simp [hz, hv]
  rw [hred e1 h1a h1z h1v, hred e2 h2a h2z h2v]
  refine ⟨rfl, rfl, ?_, ?_⟩
  · intro hp
    simp [hp]
  · intro hp
    simp [hp]

theorem unknown_error_uniform_production_response_witness :
    (errorHandler prodConfigSample "req-1" typeErrorSample).status = 500
    ∧ (errorHandler prodConfigSample "req-1" typeErrorSample).body.code = "E1009"
    ∧ (prodConfigSample.isProd = true →
        (errorHandler prodConfigSample "req-1" typeErrorSample).body.message
          = "Internal server error")
    ∧ (prodConfigSample.isProd = true →
        errorHandler prodConfigSample "req-1" typeErrorSample
          = errorHandler prodConfigSample "req-1" rangeErrorSample) :=
  unknown_error_uniform_production_response prodConfigSample "req-1"
    typeErrorSample rangeErrorSample rfl (by decide) (by decide) rfl
    (by decide) (by decide)

theorem aggregate_status_invariant_witness :
    (aggregate scenarioTwoFiveFail).status = "partial"
    ∧ (aggregate scenarioTwoFiveFail).slots 1 = none
    ∧ ((aggregate scenarioTwoFiveFail).slots 0).isSome = true :=
  ⟨(aggregate_status_invariant scenarioTwoFiveFail).2.2.2.1,
   (aggregate_status_invariant scenarioTwoFiveFail).2.2.2.2.1,
   (aggregate_status_invariant scenarioTwoFiveFail).2.2.2.2.2.2.1⟩

theorem circuit_breaker_config_defaults_witness :
    (circuitBreakerConfig (parseCircuitBreakerEnv none none none)).threshold = 3
    ∧ (circuitBreakerConfig
        (parseCircuitBreakerEnv (some "5") none (some "60000"))).threshold = 5
    ∧ (circuitBreakerConfig
        (parseCircuitBreakerEnv (some "5") none (some "60000"))).resetTimeout = 60000 :=
  ⟨(circuit_breaker_config_defaults "5" "60000").1,
   ((circuit_breaker_config_defaults "5" "60000").2.2.1).trans (by decide),
   ((circuit_breaker_config_defaults "5" "60000").2.2.2).trans (by decide)⟩

theorem cache_unavailable_degrades_witness :
    cacheGetOp false { entry := none } 0 = none
    ∧ cacheSetOp false { entry := none } (aggregate allFailOutcomes) 0 300
        = ({ entry := none }, false)
    ∧ cacheClearOp false { entry := none } = ({ entry := none }, false)
    ∧ connectRedis true false = none
    ∧ connectRedis false true = none :=
  cache_unavailable_degrades { entry := none } (aggregate allFailOutcomes) 0 300 true

theorem circuit_open_distinguishable_witness :
    isPolicyBlock (mkCircuitBreakerError "alphavantage") = true
    ∧ isPolicyBlock (mkExternalAPIError "HTTP 502 from upstream" "alphavantage" none)
        = false
    ∧ (mkCircuitBreakerError "alphavantage").code
        ≠ (mkExternalAPIError "HTTP 502 from upstream" "alphavantage" none).code
    ∧ mkCircuitBreakerError "alphavantage"
        ≠ mkExternalAPIError "HTTP 502 from upstream" "alphavantage" none :=
  circuit_open_distinguishable "HTTP 502 from upstream" "alphavantage" "alphavantage" none

end GlobalFi
